import Mathlib

/-!
Verification of the AquaCloud MCP integration core against its specification.

The development shallowly embeds the four components the spec describes:
the item-identifier parser (`parseAquaItemId`), the per-session token
manager (`getAquaAuth`), the authenticated-call wrapper (`withAquaAuth`),
and the optimistic-locking updater (`updateLockedItem`).  Network effects
are modelled by an explicit "world" record supplying the outcome of each
remote call, and each embedded operation additionally returns a trace
recording how many times each remote endpoint was invoked and what payload
was submitted, so that call-counting properties can be stated directly.
-/

namespace Aqua

/-- Decidable equality for `Except`, used to evaluate the embedded
operations at concrete inputs. -/
instance {ε α : Type} [DecidableEq ε] [DecidableEq α] : DecidableEq (Except ε α)
  | .error a, .error b => decidable_of_iff (a = b) (by simp)
  | .error _, .ok _ => .isFalse (by simp)
  | .ok _, .error _ => .isFalse (by simp)
  | .ok a, .ok b => decidable_of_iff (a = b) (by simp)

/-- JavaScript truthiness of a possibly-absent string value: `undefined`,
`null` and the empty string are falsy, every other string is truthy. -/
def truthyStr : Option String → Bool
  | none => false
  | some s => !s.data.isEmpty

/-! ## ItemIdentifierParser (`parseAquaItemId`, src/aquacloud.js lines 40-81) -/

/-- Result record of the parser: `{ itemId, itemType }`. -/
structure ItemIdentifier where
  itemId : String
  itemType : String
deriving DecidableEq, Repr

/-- The parser's failure modes: `InvalidIdentifier` for an empty or missing
raw ID, `UnresolvedItemType` when neither a recognized two-letter tag nor an
explicit type determines the item type. -/
inductive ParseErr where
  | invalidIdentifier
  | unresolvedItemType
deriving DecidableEq, Repr

/-- One regex of the form `^[aA][bB](\d+)$` (e.g. `^[rR][qQ](\d+)$`): the
string must consist of the two-letter case-insensitive tag followed by one
or more digits; on a match the captured digit group is returned. -/
def tagMatch (a b : Char) (s : String) : Option String :=
  match s.data with
  | c1 :: c2 :: rest =>
      if (c1 = a ∨ c1 = a.toUpper) ∧ (c2 = b ∨ c2 = b.toUpper) ∧
          rest.all Char.isDigit ∧ rest ≠ [] then
        some (String.mk rest)
      else none
  | _ => none

/-- Match `rawId.match(/^[rR][qQ](\d+)$/)`, returning the captured digit group. -/
def rqMatch (s : String) : Option String := tagMatch 'r' 'q' s

/-- Match `rawId.match(/^[tT][cC](\d+)$/)`, returning the captured digit group. -/
def tcMatch (s : String) : Option String := tagMatch 't' 'c' s

/-- Match `rawId.match(/^[dD][fF](\d+)$/)`, returning the captured digit group. -/
def dfMatch (s : String) : Option String := tagMatch 'd' 'f' s

/-- The tag-classification step of the parser: the inferred type (if any)
together with the final numeric ID (the captured digit group on a match,
the raw string unchanged otherwise). -/
def classifyRawId (rawId : String) : Option String × String :=
  match rqMatch rawId with
  | some d => (some "Requirement", d)
  | none =>
    match tcMatch rawId with
    | some d => (some "TestCase", d)
    | none =>
      match dfMatch rawId with
      | some d => (some "Defect", d)
      | none => (none, rawId)

/-- The parser `parseAquaItemId(rawId, explicitType)` from src/aquacloud.js.  A missing
or empty `rawId` fails with `InvalidIdentifier`; a recognized tag yields the
digit suffix as `itemId` and its mapped type; a truthy `explicitType` always
wins over the inferred type; with neither, the parse fails with
`UnresolvedItemType`. -/
def parseAquaItemId (rawId : Option String) (explicitType : Option String) :
    Except ParseErr ItemIdentifier :=
  if !truthyStr rawId then
    .error .invalidIdentifier
  else
    let raw := rawId.getD ""
    let (prefixType, finalId) := classifyRawId raw
    if truthyStr explicitType then
      .ok { itemId := finalId, itemType := explicitType.getD "" }
    else
      match prefixType with
      | some t => .ok { itemId := finalId, itemType := t }
      | none => .error .unresolvedItemType

example : parseAquaItemId (some "DF012345") none =
    .ok { itemId := "012345", itemType := "Defect" } := by decide
example : parseAquaItemId (some "rq07") none =
    .ok { itemId := "07", itemType := "Requirement" } := by decide
example : parseAquaItemId (some "TC9") none =
    .ok { itemId := "9", itemType := "TestCase" } := by decide
example : parseAquaItemId (some "DF0123") (some "Requirement") =
    .ok { itemId := "0123", itemType := "Requirement" } := by decide
example : parseAquaItemId (some "12345") none = .error .unresolvedItemType := by decide
example : parseAquaItemId (some "") (some "Defect") = .error .invalidIdentifier := by decide
example : parseAquaItemId none none = .error .invalidIdentifier := by decide
example : parseAquaItemId (some "RQ") none = .error .unresolvedItemType := by decide

/-! ## LockedItemUpdater (`updateLockedItem`, src/unnamed/part_000 lines 396-427)

Remote calls are modelled by a `LockWorld` record giving the outcome of each
step (`Except WErr` mirrors `callApi` either returning JSON or throwing);
response payloads and thrown errors are opaque and represented by `Nat`
identifiers.  The version fetched by `getItemDetails` is modelled as
`Option Int`: `none` covers every way the nested `Version.Version` field can
be missing (`!itemDetails`, `!itemDetails.Version`, or
`typeof itemDetails.Version.Version === 'undefined'`). -/

/-- An opaque error carried by a rejected remote call (a thrown axios/API
error object), identified by a number. -/
abbrev WErr := Nat

/-- The `TestSteps` sub-object of an update payload: JS object with
possibly-absent `Added` and `Deleted` arrays.  Entries are opaque strings.
Note an empty array is truthy in JS, so `some []` and `none` behave
differently under the `!x` checks, exactly as `Option` distinguishes them. -/
structure TestStepsObj where
  Added : Option (List String)
  Deleted : Option (List String)
deriving DecidableEq, Repr

/-- The `updatePayload` argument of `updateLockedItem`: a `TestSteps`
sub-object (possibly absent) plus the remaining fields, abstracted as an
opaque association list copied verbatim by the `{ ...updatePayload }`
spread. -/
structure UpdatePayload where
  TestSteps : Option TestStepsObj
  others : List (String × String)
deriving DecidableEq, Repr

/-- The outcomes of the four remote calls `updateLockedItem` can issue, in
order: the `getItemDetails` fetch (on success, the item's nested
`Version.Version` counter or `none` when missing), the `lockItem` POST, the
mutation PUT, and the `unlockItem` DELETE. -/
structure LockWorld where
  detailsResult : Except WErr (Option Int)
  lockResult : Except WErr Nat
  mutateResult : Except WErr Nat
  unlockResult : Except WErr Nat
deriving DecidableEq, Repr

/-- Errors surfaced by `updateLockedItem`: the internally thrown
`Could not retrieve version details` error, or an error propagated from a
remote call. -/
inductive UErr where
  | versionMissing
  | callFailed (e : WErr)
deriving DecidableEq, Repr

/-- Trace of the remote calls issued during one `updateLockedItem` run:
how many lock / mutation / unlock requests went out, the version the lock
was requested at, and the payload submitted to the mutation endpoint. -/
structure LockTrace where
  lockCalls : Nat
  mutateCalls : Nat
  unlockCalls : Nat
  lockedVersion : Option Int
  submitted : Option UpdatePayload
deriving DecidableEq, Repr

/-- The TestCase normalization inside `updateLockedItem`: when the item type
is `TestCase` and the payload carries a `TestSteps` object, a falsy `Added`
or `Deleted` is replaced by an empty list (a present list, even `[]`, is
kept). -/
def normalizePayload (itemType : String) (p : UpdatePayload) : UpdatePayload :=
  if itemType = "TestCase" then
    match p.TestSteps with
    | some ts =>
        { p with TestSteps := some { Added := some (ts.Added.getD []),
                                     Deleted := some (ts.Deleted.getD []) } }
    | none => p
  else p

/-- The updater `updateLockedItem(aquaUrl, auth, itemId, itemType, updatePayload)`:
fetch the version, throw if it is missing, lock at that version, then inside
a `try`/`finally` normalize and submit the mutation, unlocking in the
`finally`.  Returns the operation's outcome, the call trace, and the
caller's `updatePayload` object as it stands after the call: because
`finalPayload = { ...updatePayload }` is only a shallow copy, the
normalization writes into the caller's shared `TestSteps` object, so the
caller-visible payload after the call equals the normalized payload.
JS `finally` semantics apply: if the `unlockItem` call in the `finally`
throws, that error replaces whatever outcome the `try` block produced. -/
def updateLockedItem (w : LockWorld) (itemType : String)
    (updatePayload : UpdatePayload) :
    Except UErr Nat × LockTrace × UpdatePayload :=
  match w.detailsResult with
  | .error e =>
      (.error (.callFailed e),
       { lockCalls := 0, mutateCalls := 0, unlockCalls := 0,
         lockedVersion := none, submitted := none }, updatePayload)
  | .ok none =>
      (.error .versionMissing,
       { lockCalls := 0, mutateCalls := 0, unlockCalls := 0,
         lockedVersion := none, submitted := none }, updatePayload)
  | .ok (some version) =>
      match w.lockResult with
      | .error e =>
          (.error (.callFailed e),
           { lockCalls := 1, mutateCalls := 0, unlockCalls := 0,
             lockedVersion := some version, submitted := none }, updatePayload)
      | .ok _ =>
          let finalPayload := normalizePayload itemType updatePayload
          let tryOutcome : Except UErr Nat :=
            match w.mutateResult with
            | .ok r => .ok r
            | .error e => .error (.callFailed e)
          let outcome : Except UErr Nat :=
            match w.unlockResult with
            | .ok _ => tryOutcome
            | .error e => .error (.callFailed e)
          (outcome,
           { lockCalls := 1, mutateCalls := 1, unlockCalls := 1,
             lockedVersion := some version, submitted := some finalPayload },
           finalPayload)

/-! ## AuthTokenManager (`getAquaAuth`, src/aquacloud.js lines 89-124)

The token endpoint's response `{ access_token, refresh_token, expires_in }`
is modelled by `TokenData`; the server may omit `refresh_token`.  Times are
integer milliseconds; `AuthWorld.now` models `Date.now()` during the call. -/

/-- A token-endpoint response: `access_token`, an optional `refresh_token`,
and `expires_in` in seconds. -/
structure TokenData where
  access_token : String
  refresh_token : Option String
  expires_in : Int
deriving DecidableEq, Repr

/-- The session's stored `aquaAuth` object:
`{ token, refresh_token, expires_at }`. -/
structure AquaAuth where
  token : String
  refresh_token : Option String
  expires_at : Int
deriving DecidableEq, Repr

/-- The per-session user record `sessionMemory.user`. -/
structure SessionUser where
  aquacloud_username : String
  aquacloud_password : String
  aquacloud_url : String
deriving DecidableEq, Repr

/-- The session memory consulted and updated by `getAquaAuth`. -/
structure SessionMemory where
  user : Option SessionUser
  aquaAuth : Option AquaAuth
deriving DecidableEq, Repr

/-- The credential `getAquaAuth` returns: `{ token, type: 'bearer' }`. -/
structure Credential where
  token : String
  type : String
deriving DecidableEq, Repr

/-- Outcomes of the remote calls `getAquaAuth` can make, plus the current
clock. -/
structure AuthWorld where
  now : Int
  refreshResult : Except WErr TokenData
  loginResult : Except WErr TokenData
deriving DecidableEq, Repr

/-- Errors thrown by `getAquaAuth`: the missing-user guard, or an error
propagated from the login call (refresh errors are caught and never
propagate). -/
inductive AuthErr where
  | noUser
  | callFailed (e : WErr)
deriving DecidableEq, Repr

/-- How many refresh and login requests one `getAquaAuth` call issued. -/
structure AuthTrace where
  refreshCalls : Nat
  loginCalls : Nat
deriving DecidableEq, Repr

/-- The stored `aquaAuth` object built after a successful login or refresh:
`expires_at` is `Date.now() + expires_in * 1000 - 60000` (the 60-second
safety buffer), and `refresh_token` is taken from the response verbatim. -/
def storeTokenData (now : Int) (td : TokenData) : AquaAuth :=
  { token := td.access_token,
    refresh_token := td.refresh_token,
    expires_at := now + td.expires_in * 1000 - 60000 }

/-- The full-login fallback at the end of `getAquaAuth`: call
`aquaUtils.login`; on success store the token data and return the bearer
credential, on failure propagate the error.  `refreshCalls` records how
many refresh attempts preceded the fallback. -/
def loginStep (w : AuthWorld) (m : SessionMemory) (refreshCalls : Nat) :
    Except AuthErr (Credential × SessionMemory) × AuthTrace :=
  match w.loginResult with
  | .ok td =>
      (.ok ({ token := td.access_token, type := "bearer" },
            { m with aquaAuth := some (storeTokenData w.now td) }),
       { refreshCalls := refreshCalls, loginCalls := 1 })
  | .error e =>
      (.error (.callFailed e),
       { refreshCalls := refreshCalls, loginCalls := 1 })

/-- The token manager `getAquaAuth(sessionMemory)`: throw if no user; return the cached token
when `expires_at > Date.now()`; otherwise try the refresh endpoint when a
truthy `refresh_token` is stored (on success, overwrite `aquaAuth` with the
response data and return; on failure, fall through); finally fall back to a
full login.  Returns the credential with the updated session memory, plus
the call trace. -/
def getAquaAuth (w : AuthWorld) (m : SessionMemory) :
    Except AuthErr (Credential × SessionMemory) × AuthTrace :=
  match m.user with
  | none => (.error .noUser, { refreshCalls := 0, loginCalls := 0 })
  | some _ =>
      match m.aquaAuth with
      | some a =>
          if a.expires_at > w.now then
            (.ok ({ token := a.token, type := "bearer" }, m),
             { refreshCalls := 0, loginCalls := 0 })
          else if truthyStr a.refresh_token then
            match w.refreshResult with
            | .ok td =>
                (.ok ({ token := td.access_token, type := "bearer" },
                      { m with aquaAuth := some (storeTokenData w.now td) }),
                 { refreshCalls := 1, loginCalls := 0 })
            | .error _ => loginStep w m 1
          else loginStep w m 0
      | none => loginStep w m 0

/-! ## Authenticated-call wrapper (`withAquaAuth`, src/aquacloud.js lines 438-527)

The wrapper's collaborators are modelled as follows.  `encrypt`/`decrypt`
come from an external crypto module outside this repository; the spec
declares symmetric encryption of stored secrets out of scope, so they are
embedded as mutually inverse identity codings on the stored strings.  Each
invocation of the inner `performApiCall` is given by `CallWorld.apiCall`,
indexed by invocation order (0 = the initial attempt with the stored
token); its outcome distinguishes success, an HTTP error response with a
status (throwing `err` with `err.response.status` set), and a transport
failure with no response object at all. -/

/-- Modelled from the spec: `encrypt` from the out-of-scope secret-storage
collaborator (`../crypto.js`, not part of this repository); embedded as the
identity coding on strings. -/
def encrypt (s : String) : String := s

/-- Modelled from the spec: `decrypt`, inverse of `encrypt` from the
out-of-scope secret-storage collaborator; embedded as the identity coding
on strings. -/
def decrypt (s : String) : String := s

/-- Outcome of one `performApiCall` invocation: the call returns a payload,
throws an error carrying an HTTP response with a status, or throws a
transport error with no response attached. -/
inductive CallOutcome where
  | success (payload : Nat)
  | httpError (status : Nat) (data : WErr)
  | transportError (cause : WErr)
deriving DecidableEq, Repr

/-- The persisted user record `req.user` consulted and saved by
`withAquaAuth`; token fields hold encrypted values and may be unset. -/
structure WebUser where
  aquacloud_url : Option String
  aquacloud_username : Option String
  aquacloud_password : Option String
  aquacloud_access_token : Option String
  aquacloud_refresh_token : Option String
deriving DecidableEq, Repr

/-- The environment of one `withAquaAuth` run: the outcome of the n-th
`performApiCall` (0-based, in invocation order) and of the refresh and
login endpoints. -/
structure CallWorld where
  apiCall : Nat → CallOutcome
  refreshResult : Except WErr TokenData
  loginResult : Except WErr TokenData

/-- What one `withAquaAuth` run produced: the value returned to the caller
(`none` models returning `null`), the saved user record afterwards, how
often each endpoint was hit, and the HTTP status sent on the Express
response when the failure was reported (absent when the run succeeded or
`silent` was set). -/
structure WrapResult where
  result : Option Nat
  user : WebUser
  apiCalls : Nat
  refreshCalls : Nat
  loginCalls : Nat
  respStatus : Option Nat
deriving DecidableEq, Repr

/-- The password-login fallback of `withAquaAuth` (step 2): if a password
is stored, log in, save the new tokens (keeping the old refresh token when
the response omits one) and retry the API call; any failure inside this
block clears both stored tokens and reports a 401.  With no password the
run fails with a 401 report (step 3). -/
def loginFallback (w : CallWorld) (user : WebUser) (silent : Bool)
    (apiCallsSoFar refreshCalls : Nat) : WrapResult :=
  if truthyStr user.aquacloud_password then
    match w.loginResult with
    | .ok newTokens =>
        let user1 : WebUser :=
          { user with
            aquacloud_access_token := some (encrypt newTokens.access_token),
            aquacloud_refresh_token :=
              if truthyStr newTokens.refresh_token then
                some (encrypt (newTokens.refresh_token.getD ""))
              else user.aquacloud_refresh_token }
        match w.apiCall apiCallsSoFar with
        | .success p =>
            { result := some p, user := user1, apiCalls := apiCallsSoFar + 1,
              refreshCalls := refreshCalls, loginCalls := 1, respStatus := none }
        | _ =>
            { result := none,
              user := { user1 with aquacloud_access_token := none,
                                   aquacloud_refresh_token := none },
              apiCalls := apiCallsSoFar + 1,
              refreshCalls := refreshCalls, loginCalls := 1,
              respStatus := if silent then none else some 401 }
    | .error _ =>
        { result := none,
          user := { user with aquacloud_access_token := none,
                              aquacloud_refresh_token := none },
          apiCalls := apiCallsSoFar,
          refreshCalls := refreshCalls, loginCalls := 1,
          respStatus := if silent then none else some 401 }
  else
    { result := none, user := user, apiCalls := apiCallsSoFar,
      refreshCalls := refreshCalls, loginCalls := 0,
      respStatus := if silent then none else some 401 }

/-- The refresh-or-login section of `withAquaAuth` (step 1): if a refresh
token is stored, call the refresh endpoint; on success save the new tokens
(keeping the old refresh token when the response omits one) and retry the
API call.  Any throw inside this block — a refresh failure or a failed
retried call, whatever its status — is caught and falls through to the
password login. -/
def refreshOrLogin (w : CallWorld) (user : WebUser) (silent : Bool)
    (apiCallsSoFar : Nat) : WrapResult :=
  if truthyStr user.aquacloud_refresh_token then
    match w.refreshResult with
    | .ok newTokens =>
        let user1 : WebUser :=
          { user with
            aquacloud_access_token := some (encrypt newTokens.access_token),
            aquacloud_refresh_token :=
              if truthyStr newTokens.refresh_token then
                some (encrypt (newTokens.refresh_token.getD ""))
              else user.aquacloud_refresh_token }
        match w.apiCall apiCallsSoFar with
        | .success p =>
            { result := some p, user := user1, apiCalls := apiCallsSoFar + 1,
              refreshCalls := 1, loginCalls := 0, respStatus := none }
        | _ => loginFallback w user1 silent (apiCallsSoFar + 1) 1
    | .error _ => loginFallback w user silent apiCallsSoFar 1
  else loginFallback w user silent apiCallsSoFar 0

/-- The wrapper `withAquaAuth(req, res, apiCall, options)`: fail with a 401 report
when the AquaCloud URL or username is missing; otherwise, when an access
token is stored, try the call with it — a non-401 HTTP error or a
transport error is terminal (reported with the response status, or 500
when there is none), while a 401 falls into the refresh-or-login chain.
With no stored access token the chain is entered directly. -/
def withAquaAuth (w : CallWorld) (user : WebUser) (silent : Bool) :
    WrapResult :=
  if !truthyStr user.aquacloud_url || !truthyStr user.aquacloud_username then
    { result := none, user := user, apiCalls := 0, refreshCalls := 0,
      loginCalls := 0, respStatus := if silent then none else some 401 }
  else if truthyStr user.aquacloud_access_token then
    match w.apiCall 0 with
    | .success p =>
        { result := some p, user := user, apiCalls := 1, refreshCalls := 0,
          loginCalls := 0, respStatus := none }
    | .httpError status _ =>
        if status = 401 then refreshOrLogin w user silent 1
        else
          { result := none, user := user, apiCalls := 1, refreshCalls := 0,
            loginCalls := 0, respStatus := if silent then none else some status }
    | .transportError _ =>
        { result := none, user := user, apiCalls := 1, refreshCalls := 0,
          loginCalls := 0, respStatus := if silent then none else some 500 }
  else refreshOrLogin w user silent 0

/-! ## Lemmas about the parser -/

theorem truthy_of_ne_nil (s : String) (h : s.data ≠ []) :
    truthyStr (some s) = true := by
  simp [truthyStr, List.isEmpty_iff, h]

theorem tagMatch_cons (a b c1 c2 : Char) (d : List Char) :
    tagMatch a b (String.mk (c1 :: c2 :: d)) =
      if (c1 = a ∨ c1 = a.toUpper) ∧ (c2 = b ∨ c2 = b.toUpper) ∧
          d.all Char.isDigit ∧ d ≠ [] then some (String.mk d) else none := rfl

theorem tagMatch_cons_pos (a b c1 c2 : Char) (d : List Char)
    (h1 : c1 = a ∨ c1 = a.toUpper) (h2 : c2 = b ∨ c2 = b.toUpper)
    (hd : d.all Char.isDigit = true) (hne : d ≠ []) :
    tagMatch a b (String.mk (c1 :: c2 :: d)) = some (String.mk d) := by
  rw [tagMatch_cons, if_pos ⟨h1, h2, hd, hne⟩]

theorem tagMatch_cons_neg (a b c1 c2 : Char) (d : List Char)
    (h1 : ¬(c1 = a ∨ c1 = a.toUpper)) :
    tagMatch a b (String.mk (c1 :: c2 :: d)) = none := by
  rw [tagMatch_cons, if_neg]
  rintro ⟨hc, -⟩
  exact h1 hc

theorem classify_rq (raw d : String) (h : rqMatch raw = some d) :
    classifyRawId raw = (some "Requirement", d) := by
  unfold classifyRawId
  rw [h]

theorem classify_tc (raw d : String) (h0 : rqMatch raw = none)
    (h : tcMatch raw = some d) :
    classifyRawId raw = (some "TestCase", d) := by
  unfold classifyRawId
  rw [h0, h]

theorem classify_df (raw d : String) (h0 : rqMatch raw = none)
    (h1 : tcMatch raw = none) (h : dfMatch raw = some d) :
    classifyRawId raw = (some "Defect", d) := by
  unfold classifyRawId
  rw [h0, h1, h]

theorem classify_none (raw : String) (h0 : rqMatch raw = none)
    (h1 : tcMatch raw = none) (h2 : dfMatch raw = none) :
    classifyRawId raw = (none, raw) := by
  unfold classifyRawId
  rw [h0, h1, h2]

theorem parse_inferred (raw t fid : String) (hraw : raw.data ≠ [])
    (hclass : classifyRawId raw = (some t, fid)) :
    parseAquaItemId (some raw) none = .ok { itemId := fid, itemType := t } := by
  simp [parseAquaItemId, truthyStr, hclass, hraw]

theorem parse_explicit (raw t : String) (pt : Option String) (fid : String)
    (hraw : raw.data ≠ []) (ht : t.data ≠ [])
    (hclass : classifyRawId raw = (pt, fid)) :
    parseAquaItemId (some raw) (some t) =
      .ok { itemId := fid, itemType := t } := by
  simp [parseAquaItemId, truthy_of_ne_nil raw hraw, truthy_of_ne_nil t ht, hclass]

theorem parse_noType (raw : String) (et : Option String) (hraw : raw.data ≠ [])
    (hclass : classifyRawId raw = (none, raw)) (het : truthyStr et = false) :
    parseAquaItemId (some raw) et = .error .unresolvedItemType := by
  simp [parseAquaItemId, truthy_of_ne_nil raw hraw, hclass, het]

theorem tagMatch_heads (a b : Char) (s d : String) (h : tagMatch a b s = some d) :
    ∃ c1 c2 rest, s.data = c1 :: c2 :: rest ∧ (c1 = a ∨ c1 = a.toUpper) := by
  unfold tagMatch at h
  rcases hs : s.data with _ | ⟨c1, _ | ⟨c2, rest⟩⟩ <;> simp only [hs] at h
  · exact absurd h (by simp)
  · exact absurd h (by simp)
  · split at h
    next hcond => exact ⟨c1, c2, rest, rfl, hcond.1⟩
    next => exact absurd h (by simp)

theorem tagMatch_none_of_head (a b c1 c2 : Char) (rest : List Char) (s : String)
    (hs : s.data = c1 :: c2 :: rest) (hc1 : ¬(c1 = a ∨ c1 = a.toUpper)) :
    tagMatch a b s = none := by
  unfold tagMatch
  simp only [hs]
  rw [if_neg]
  rintro ⟨h', -⟩
  exact hc1 h'

/-! ## The parser claims -/

/-- C6: for every recognized two-letter tag — `rq`/`tc`/`df` in any casing —
followed by a non-empty digit string `d` and with no explicit type supplied,
`parseAquaItemId` succeeds with the digit string as `itemId` and the tag's
mapped item type. -/
theorem prefix_digit_parse_c6 (c1 c2 : Char) (d : List Char)
    (hne : d ≠ []) (hd : d.all Char.isDigit = true) :
    ((c1 = 'r' ∨ c1 = 'R') → (c2 = 'q' ∨ c2 = 'Q') →
      parseAquaItemId (some (String.mk (c1 :: c2 :: d))) none =
        .ok { itemId := String.mk d, itemType := "Requirement" }) ∧
    ((c1 = 't' ∨ c1 = 'T') → (c2 = 'c' ∨ c2 = 'C') →
      parseAquaItemId (some (String.mk (c1 :: c2 :: d))) none =
        .ok { itemId := String.mk d, itemType := "TestCase" }) ∧
    ((c1 = 'd' ∨ c1 = 'D') → (c2 = 'f' ∨ c2 = 'F') →
      parseAquaItemId (some (String.mk (c1 :: c2 :: d))) none =
        .ok { itemId := String.mk d, itemType := "Defect" }) := by
  have hdata : (String.mk (c1 :: c2 :: d)).data ≠ [] := by simp
  refine ⟨fun h1 h2 => ?_, fun h1 h2 => ?_, fun h1 h2 => ?_⟩
  · have h1' : c1 = 'r' ∨ c1 = 'r'.toUpper := by
      rcases h1 with h | h <;> subst h <;> [exact .inl rfl; exact .inr (by decide)]
    have h2' : c2 = 'q' ∨ c2 = 'q'.toUpper := by
      rcases h2 with h | h <;> subst h <;> [exact .inl rfl; exact .inr (by decide)]
    exact parse_inferred _ _ _ hdata
      (classify_rq _ _ (tagMatch_cons_pos 'r' 'q' c1 c2 d h1' h2' hd hne))
  · have h1' : c1 = 't' ∨ c1 = 't'.toUpper := by
      rcases h1 with h | h <;> subst h <;> [exact .inl rfl; exact .inr (by decide)]
    have h2' : c2 = 'c' ∨ c2 = 'c'.toUpper := by
      rcases h2 with h | h <;> subst h <;> [exact .inl rfl; exact .inr (by decide)]
    have h0 : rqMatch (String.mk (c1 :: c2 :: d)) = none :=
      tagMatch_cons_neg 'r' 'q' c1 c2 d
        (by rcases h1 with h | h <;> subst h <;> decide)
    exact parse_inferred _ _ _ hdata
      (classify_tc _ _ h0 (tagMatch_cons_pos 't' 'c' c1 c2 d h1' h2' hd hne))
  · have h1' : c1 = 'd' ∨ c1 = 'd'.toUpper := by
      rcases h1 with h | h <;> subst h <;> [exact .inl rfl; exact .inr (by decide)]
    have h2' : c2 = 'f' ∨ c2 = 'f'.toUpper := by
      rcases h2 with h | h <;> subst h <;> [exact .inl rfl; exact .inr (by decide)]
    have h0 : rqMatch (String.mk (c1 :: c2 :: d)) = none :=
      tagMatch_cons_neg 'r' 'q' c1 c2 d
        (by rcases h1 with h | h <;> subst h <;> decide)
    have h1m : tcMatch (String.mk (c1 :: c2 :: d)) = none :=
      tagMatch_cons_neg 't' 'c' c1 c2 d
        (by rcases h1 with h | h <;> subst h <;> decide)
    exact parse_inferred _ _ _ hdata
      (classify_df _ _ h0 h1m (tagMatch_cons_pos 'd' 'f' c1 c2 d h1' h2' hd hne))

theorem prefix_digit_parse_c6_witness :
    parseAquaItemId (some (String.mk ['D', 'f', '0', '7'])) none =
      .ok { itemId := String.mk ['0', '7'], itemType := "Defect" } :=
  (prefix_digit_parse_c6 'D' 'f' ['0', '7'] (by decide) (by decide)).2.2
    (by decide) (by decide)

/-- C7: with a non-empty raw ID and a supplied (truthy) explicit type, the
parse always succeeds with `itemType` equal to the explicit type, and the
numeric-ID extraction still applies: the result's `itemId` is the
classification step's final ID, which equals the captured digit suffix
whenever one of the three tag regexes matches. -/
theorem explicit_type_wins_c7 (raw t : String) (hraw : raw.data ≠ [])
    (ht : t.data ≠ []) :
    parseAquaItemId (some raw) (some t) =
      .ok { itemId := (classifyRawId raw).2, itemType := t } ∧
    (∀ d, rqMatch raw = some d → (classifyRawId raw).2 = d) ∧
    (∀ d, tcMatch raw = some d → (classifyRawId raw).2 = d) ∧
    (∀ d, dfMatch raw = some d → (classifyRawId raw).2 = d) := by
  refine ⟨parse_explicit raw t _ _ hraw ht rfl, ?_, ?_, ?_⟩
  · intro d h
    rw [classify_rq raw d h]
  · intro d h
    obtain ⟨c1, c2, rest, hs, hc⟩ := tagMatch_heads 't' 'c' raw d h
    have h0 : rqMatch raw = none :=
      tagMatch_none_of_head 'r' 'q' c1 c2 rest raw hs
        (by rcases hc with h' | h' <;> subst h' <;> decide)
    rw [classify_tc raw d h0 h]
  · intro d h
    obtain ⟨c1, c2, rest, hs, hc⟩ := tagMatch_heads 'd' 'f' raw d h
    have h0 : rqMatch raw = none :=
      tagMatch_none_of_head 'r' 'q' c1 c2 rest raw hs
        (by rcases hc with h' | h' <;> subst h' <;> decide)
    have h1 : tcMatch raw = none :=
      tagMatch_none_of_head 't' 'c' c1 c2 rest raw hs
        (by rcases hc with h' | h' <;> subst h' <;> decide)
    rw [classify_df raw d h0 h1 h]

theorem explicit_type_wins_c7_witness :
    parseAquaItemId (some (String.mk ['R', 'Q', '5'])) (some "Defect") =
      .ok { itemId := String.mk ['5'], itemType := "Defect" } := by
  rw [(explicit_type_wins_c7 (String.mk ['R', 'Q', '5']) "Defect"
        (by decide) (by decide)).1]
  decide

/-- C8: a missing or empty raw ID fails with `InvalidIdentifier`; a
non-empty raw ID matching none of the three tag regexes fails with
`UnresolvedItemType` when no (truthy) explicit type is supplied, and with a
supplied explicit type succeeds with the raw string unchanged as the
numeric ID. -/
theorem parse_failure_modes_c8 :
    (∀ et, parseAquaItemId none et = .error .invalidIdentifier ∧
           parseAquaItemId (some "") et = .error .invalidIdentifier) ∧
    (∀ raw, raw.data ≠ [] → rqMatch raw = none → tcMatch raw = none →
      dfMatch raw = none →
      (∀ et, truthyStr et = false →
        parseAquaItemId (some raw) et = .error .unresolvedItemType) ∧
      (∀ t, t.data ≠ [] →
        parseAquaItemId (some raw) (some t) =
          .ok { itemId := raw, itemType := t })) := by
  constructor
  · exact fun et => ⟨rfl, rfl⟩
  · intro raw hraw h0 h1 h2
    have hclass := classify_none raw h0 h1 h2
    exact ⟨fun et het => parse_noType raw et hraw hclass het,
           fun t ht => parse_explicit raw t none raw hraw ht hclass⟩

theorem parse_failure_modes_c8_witness :
    parseAquaItemId none none = .error .invalidIdentifier ∧
    parseAquaItemId (some "12345") none = .error .unresolvedItemType ∧
    parseAquaItemId (some "12345") (some "Defect") =
      .ok { itemId := "12345", itemType := "Defect" } := by
  refine ⟨(parse_failure_modes_c8.1 none).1, ?_, ?_⟩
  · exact (parse_failure_modes_c8.2 "12345" (by decide) (by decide) (by decide)
      (by decide)).1 none (by decide)
  · exact (parse_failure_modes_c8.2 "12345" (by decide) (by decide) (by decide)
      (by decide)).2 "Defect" (by decide)

/-! ## The locked-item updater claims -/

/-- C4: when the fetched item payload lacks a version counter the update
fails with the version-unavailable error having issued zero lock and zero
unlock calls; and when the version fetch succeeds but the lock request is
rejected, the update issues zero mutation and zero unlock calls and
propagates the lock error. -/
theorem locked_update_early_failures_c4 (w : LockWorld) (itemType : String)
    (p : UpdatePayload) :
    (w.detailsResult = .ok none →
      (updateLockedItem w itemType p).1 = .error .versionMissing ∧
      (updateLockedItem w itemType p).2.1.lockCalls = 0 ∧
      (updateLockedItem w itemType p).2.1.unlockCalls = 0) ∧
    (∀ v e, w.detailsResult = .ok (some v) → w.lockResult = .error e →
      (updateLockedItem w itemType p).2.1.mutateCalls = 0 ∧
      (updateLockedItem w itemType p).2.1.unlockCalls = 0 ∧
      (updateLockedItem w itemType p).1 = .error (.callFailed e)) := by
  constructor
  · intro h
    simp [updateLockedItem, h]
  · intro v e hd hl
    simp [updateLockedItem, hd, hl]

theorem locked_update_early_failures_c4_witness :
    (updateLockedItem
        { detailsResult := .ok none, lockResult := .ok 0,
          mutateResult := .ok 0, unlockResult := .ok 0 } "TestCase"
        { TestSteps := none, others := [] }).2.1.lockCalls = 0 ∧
    (updateLockedItem
        { detailsResult := .ok (some 7), lockResult := .error 3,
          mutateResult := .ok 0, unlockResult := .ok 0 } "TestCase"
        { TestSteps := none, others := [] }).2.1.unlockCalls = 0 :=
  ⟨((locked_update_early_failures_c4 _ _ _).1 rfl).2.1,
   ((locked_update_early_failures_c4 _ _ _).2 7 3 rfl rfl).2.1⟩

/-- C5: for a TestCase update whose payload carries a TestSteps object, the
payload submitted to the mutation endpoint has both Added and Deleted
present as lists — a list not supplied by the caller is normalized to the
empty list, a supplied one (even empty) is kept — and when every step
succeeds the operation returns the mutation response payload, with the lock
taken at the fetched version and released once. -/
theorem testcase_normalization_c5 (w : LockWorld) (ts : TestStepsObj)
    (others : List (String × String)) (v : Int) (l : Nat)
    (hd : w.detailsResult = .ok (some v)) (hl : w.lockResult = .ok l) :
    (updateLockedItem w "TestCase"
        { TestSteps := some ts, others := others }).2.1.submitted =
      some { TestSteps := some { Added := some (ts.Added.getD []),
                                 Deleted := some (ts.Deleted.getD []) },
             others := others } ∧
    (∀ r u, w.mutateResult = .ok r → w.unlockResult = .ok u →
      (updateLockedItem w "TestCase"
          { TestSteps := some ts, others := others }).1 = .ok r ∧
      (updateLockedItem w "TestCase"
          { TestSteps := some ts, others := others }).2.1.unlockCalls = 1 ∧
      (updateLockedItem w "TestCase"
          { TestSteps := some ts, others := others }).2.1.lockedVersion = some v) := by
  constructor
  · simp [updateLockedItem, normalizePayload, hd, hl]
  · intro r u hm hu
    simp [updateLockedItem, normalizePayload, hd, hl, hm, hu]

theorem testcase_normalization_c5_witness :
    (updateLockedItem
        { detailsResult := .ok (some 7), lockResult := .ok 0,
          mutateResult := .ok 42, unlockResult := .ok 0 } "TestCase"
        { TestSteps := some { Added := some ["stepA"], Deleted := none },
          others := [] }).2.1.submitted =
      some { TestSteps := some { Added := some ["stepA"], Deleted := some [] },
             others := [] } ∧
    (updateLockedItem
        { detailsResult := .ok (some 7), lockResult := .ok 0,
          mutateResult := .ok 42, unlockResult := .ok 0 } "TestCase"
        { TestSteps := some { Added := some ["stepA"], Deleted := none },
          others := [] }).1 = .ok 42 := by
  have h := testcase_normalization_c5
    { detailsResult := .ok (some 7), lockResult := .ok 0,
      mutateResult := .ok 42, unlockResult := .ok 0 }
    { Added := some ["stepA"], Deleted := none } [] 7 0 rfl rfl
  exact ⟨h.1, (h.2 42 0 rfl rfl).1⟩

/-- C1 counterexample: with the version fetch and lock succeeding, the
mutation step throwing error 5 and the unlock call itself throwing error 7,
exactly one unlock call is issued but the operation reports the unlock
error, not the mutation error — the claim that the mutation error is what
the caller sees fails at this input. -/
theorem unlock_error_masks_c1_cex :
    (updateLockedItem
        { detailsResult := .ok (some 3), lockResult := .ok 0,
          mutateResult := .error 5, unlockResult := .error 7 } "TestCase"
        { TestSteps := none, others := [] }).2.1.unlockCalls = 1 ∧
    (updateLockedItem
        { detailsResult := .ok (some 3), lockResult := .ok 0,
          mutateResult := .error 5, unlockResult := .error 7 } "TestCase"
        { TestSteps := none, others := [] }).1 = .error (.callFailed 7) ∧
    (Except.error (UErr.callFailed 7) : Except UErr Nat) ≠
      .error (.callFailed 5) := by
  refine ⟨rfl, rfl, by decide⟩

/-- C1 amended: when the version fetch and lock succeed and the mutation
step throws, exactly one unlock call is issued before `updateLockedItem`
returns; the error reported to the caller is the mutation step's error
when the unlock call succeeds, but when the unlock call itself throws, its
error replaces the mutation error (JS `finally` semantics — the unlock
failure is not caught). -/
theorem locked_update_mutation_error_c1 (w : LockWorld) (itemType : String)
    (p : UpdatePayload) (v : Int) (l : Nat) (em : WErr)
    (hd : w.detailsResult = .ok (some v)) (hl : w.lockResult = .ok l)
    (hm : w.mutateResult = .error em) :
    (updateLockedItem w itemType p).2.1.unlockCalls = 1 ∧
    (updateLockedItem w itemType p).1 =
      (match w.unlockResult with
       | .ok _ => .error (.callFailed em)
       | .error eu => .error (.callFailed eu)) := by
  rcases hu : w.unlockResult with eu | u <;>
    simp [updateLockedItem, hd, hl, hm, hu]

theorem locked_update_mutation_error_c1_witness :
    (updateLockedItem
        { detailsResult := .ok (some 3), lockResult := .ok 0,
          mutateResult := .error 5, unlockResult := .ok 9 } "TestCase"
        { TestSteps := none, others := [] }).2.1.unlockCalls = 1 ∧
    (updateLockedItem
        { detailsResult := .ok (some 3), lockResult := .ok 0,
          mutateResult := .error 5, unlockResult := .ok 9 } "TestCase"
        { TestSteps := none, others := [] }).1 = .error (.callFailed 5) := by
  have h := locked_update_mutation_error_c1
    { detailsResult := .ok (some 3), lockResult := .ok 0,
      mutateResult := .error 5, unlockResult := .ok 9 } "TestCase"
    { TestSteps := none, others := [] } 3 0 5 rfl rfl rfl
  exact ⟨h.1, h.2⟩

/-- C10: the submitted payload is only a shallow copy of the caller's
update payload, so the TestCase normalization writes the defaulted Added
and Deleted lists into the caller-supplied TestSteps object: once the lock
step is passed, the caller-visible payload after the call is the normalized
payload, and when the caller omitted the Deleted list their payload object
has changed rather than being left intact. -/
theorem payload_mutated_in_place_c10 (w : LockWorld) (ts : TestStepsObj)
    (others : List (String × String)) (v : Int) (l : Nat)
    (hd : w.detailsResult = .ok (some v)) (hl : w.lockResult = .ok l)
    (hdel : ts.Deleted = none) :
    (updateLockedItem w "TestCase"
        { TestSteps := some ts, others := others }).2.2 =
      { TestSteps := some { Added := some (ts.Added.getD []),
                            Deleted := some [] },
        others := others } ∧
    (updateLockedItem w "TestCase"
        { TestSteps := some ts, others := others }).2.2 ≠
      { TestSteps := some ts, others := others } := by
  have h1 : (updateLockedItem w "TestCase"
      { TestSteps := some ts, others := others }).2.2 =
      { TestSteps := some { Added := some (ts.Added.getD []),
                            Deleted := some [] },
        others := others } := by
    simp [updateLockedItem, normalizePayload, hd, hl, hdel]
  refine ⟨h1, ?_⟩
  rw [h1]
  intro heq
  have hts := congrArg UpdatePayload.TestSteps heq
  simp only [Option.some.injEq] at hts
  rw [← hts] at hdel
  simp at hdel

theorem payload_mutated_in_place_c10_witness :
    (updateLockedItem
        { detailsResult := .ok (some 7), lockResult := .ok 0,
          mutateResult := .ok 42, unlockResult := .ok 0 } "TestCase"
        { TestSteps := some { Added := some ["stepA"], Deleted := none },
          others := [] }).2.2 ≠
      { TestSteps := some { Added := some ["stepA"], Deleted := none },
        others := [] } :=
  (payload_mutated_in_place_c10
    { detailsResult := .ok (some 7), lockResult := .ok 0,
      mutateResult := .ok 42, unlockResult := .ok 0 }
    { Added := some ["stepA"], Deleted := none } [] 7 0 rfl rfl rfl).2

/-! ## The token-manager claims -/

theorem loginStep_memory (w : AuthWorld) (m : SessionMemory) (n : Nat)
    (cred : Credential) (m' : SessionMemory)
    (h : (loginStep w m n).1 = .ok (cred, m')) :
    ∃ td, w.loginResult = .ok td ∧
      m'.aquaAuth = some (storeTokenData w.now td) := by
  unfold loginStep at h
  rcases hl : w.loginResult with e | td <;> simp only [hl] at h
  · exact absurd h (by simp)
  · refine ⟨td, rfl, ?_⟩
    obtain ⟨h1, h2⟩ := by simpa using h
    rw [← h2]

/-- C9: a session whose stored token is present with the current time
strictly before its expiry gets the cached token back immediately, with no
refresh and no login call and the memory untouched; and every other
successful `getAquaAuth` run stores a token whose expiry is the current
time plus the server-reported `expires_in` (seconds, scaled to
milliseconds) minus the 60-second safety margin. -/
theorem token_cache_and_expiry_c9 :
    (∀ (w : AuthWorld) (m : SessionMemory) (a : AquaAuth),
      m.user.isSome = true → m.aquaAuth = some a → w.now < a.expires_at →
      getAquaAuth w m =
        (.ok ({ token := a.token, type := "bearer" }, m),
         { refreshCalls := 0, loginCalls := 0 })) ∧
    (∀ (w : AuthWorld) (m : SessionMemory) (cred : Credential)
        (m' : SessionMemory),
      (getAquaAuth w m).1 = .ok (cred, m') →
      m' = m ∨ ∃ td, (w.refreshResult = .ok td ∨ w.loginResult = .ok td) ∧
        m'.aquaAuth = some { token := td.access_token,
                             refresh_token := td.refresh_token,
                             expires_at := w.now + td.expires_in * 1000 - 60000 }) := by
  constructor
  · intro w m a hu ha hnow
    rcases hus : m.user with _ | u
    · rw [hus] at hu
      exact absurd hu (by simp)
    · simp [getAquaAuth, hus, ha, hnow]
  · intro w m cred m' h
    unfold getAquaAuth at h
    rcases hus : m.user with _ | u <;> simp only [hus] at h
    · exact absurd h (by simp)
    · rcases has : m.aquaAuth with _ | a <;> simp only [has] at h
      · obtain ⟨td, htd, hmem⟩ := loginStep_memory w m 0 cred m' h
        exact .inr ⟨td, .inr htd, hmem⟩
      · by_cases hval : a.expires_at > w.now
        · rw [if_pos hval] at h
          obtain ⟨h1, h2⟩ := by simpa using h
          exact .inl h2.symm
        · rw [if_neg hval] at h
          by_cases hrt : truthyStr a.refresh_token = true
          · rw [if_pos hrt] at h
            rcases hr : w.refreshResult with e | td <;> simp only [hr] at h
            · obtain ⟨td, htd, hmem⟩ := loginStep_memory w m 1 cred m' h
              exact .inr ⟨td, .inr htd, hmem⟩
            · obtain ⟨h1, h2⟩ := by simpa using h
              exact .inr ⟨td, .inl rfl, by rw [← h2]; rfl⟩
          · rw [if_neg hrt] at h
            obtain ⟨td, htd, hmem⟩ := loginStep_memory w m 0 cred m' h
            exact .inr ⟨td, .inr htd, hmem⟩

theorem token_cache_and_expiry_c9_witness :
    getAquaAuth
        { now := 50,
          refreshResult := .error 0, loginResult := .error 0 }
        { user := some { aquacloud_username := "u", aquacloud_password := "p",
                         aquacloud_url := "https://aqua" },
          aquaAuth := some { token := "t0", refresh_token := some "r0",
                             expires_at := 1000 } } =
      (.ok ({ token := "t0", type := "bearer" },
            { user := some { aquacloud_username := "u",
                             aquacloud_password := "p",
                             aquacloud_url := "https://aqua" },
              aquaAuth := some { token := "t0", refresh_token := some "r0",
                                 expires_at := 1000 } }),
       { refreshCalls := 0, loginCalls := 0 }) :=
  token_cache_and_expiry_c9.1 _ _
    { token := "t0", refresh_token := some "r0", expires_at := 1000 }
    (by decide) rfl (by decide)

/-- C2 counterexample: a session storing refresh token "r0" with an expired
access token takes the refresh path; the refresh succeeds but its response
omits a refresh token; `getAquaAuth` overwrites the stored `aquaAuth`
object wholesale, so the previously stored refresh token is cleared
(replaced by the absent value) instead of being kept. -/
theorem refresh_token_overwritten_c2_cex :
    (getAquaAuth
        { now := 100,
          refreshResult := .ok { access_token := "t1", refresh_token := none,
                                 expires_in := 3600 },
          loginResult := .error 0 }
        { user := some { aquacloud_username := "u", aquacloud_password := "p",
                         aquacloud_url := "https://aqua" },
          aquaAuth := some { token := "t0", refresh_token := some "r0",
                             expires_at := 0 } }).1 =
      .ok ({ token := "t1", type := "bearer" },
           { user := some { aquacloud_username := "u",
                            aquacloud_password := "p",
                            aquacloud_url := "https://aqua" },
             aquaAuth := some { token := "t1", refresh_token := none,
                                expires_at := 100 + 3600 * 1000 - 60000 } }) ∧
    (none : Option String) ≠ some "r0" := by
  exact ⟨by decide, by decide⟩

/-- C2 amended: when `getAquaAuth` takes the refresh path and the refresh
endpoint succeeds, the session's token state is replaced with the new
access token, but the stored refresh token is overwritten with exactly the
value of the response's `refresh_token` field — when the response omits it,
the stored refresh token is cleared, not kept.  The keep-the-previous
behavior exists only in the `withAquaAuth` wrapper, which leaves the
user's stored refresh token intact when the refresh response omits one. -/
theorem refresh_path_token_state_c2 :
    (∀ (w : AuthWorld) (m : SessionMemory) (a : AquaAuth) (td : TokenData),
      m.user.isSome = true → m.aquaAuth = some a →
      ¬(a.expires_at > w.now) → truthyStr a.refresh_token = true →
      w.refreshResult = .ok td →
      getAquaAuth w m =
        (.ok ({ token := td.access_token, type := "bearer" },
              { m with
                aquaAuth := some { token := td.access_token,
                                   refresh_token := td.refresh_token,
                                   expires_at :=
                                     w.now + td.expires_in * 1000 - 60000 } }),
         { refreshCalls := 1, loginCalls := 0 })) ∧
    (∀ (w : CallWorld) (user : WebUser) (silent : Bool) (td : TokenData)
        (d p : Nat),
      truthyStr user.aquacloud_url = true →
      truthyStr user.aquacloud_username = true →
      truthyStr user.aquacloud_access_token = true →
      truthyStr user.aquacloud_refresh_token = true →
      w.apiCall 0 = .httpError 401 d → w.refreshResult = .ok td →
      truthyStr td.refresh_token = false → w.apiCall 1 = .success p →
      (withAquaAuth w user silent).user.aquacloud_refresh_token =
        user.aquacloud_refresh_token ∧
      (withAquaAuth w user silent).user.aquacloud_access_token =
        some (encrypt td.access_token)) := by
  constructor
  · intro w m a td hu ha hval hrt hr
    rcases hus : m.user with _ | u
    · rw [hus] at hu
      exact absurd hu (by simp)
    · simp [getAquaAuth, hus, ha, hval, hrt, hr, storeTokenData]
  · intro w user silent td d p hurl huser hacc href h0 hr hnone h1
    simp [withAquaAuth, refreshOrLogin, hurl, huser, hacc, href, h0, hr,
      hnone, h1]

theorem refresh_path_token_state_c2_witness :
    (getAquaAuth
        { now := 100,
          refreshResult := .ok { access_token := "t1", refresh_token := none,
                                 expires_in := 3600 },
          loginResult := .error 0 }
        { user := some { aquacloud_username := "u", aquacloud_password := "p",
                         aquacloud_url := "https://aqua" },
          aquaAuth := some { token := "t0", refresh_token := some "r0",
                             expires_at := 0 } }) =
      (.ok ({ token := "t1", type := "bearer" },
            { user := some { aquacloud_username := "u",
                             aquacloud_password := "p",
                             aquacloud_url := "https://aqua" },
              aquaAuth := some { token := "t1", refresh_token := none,
                                 expires_at := 100 + 3600 * 1000 - 60000 } }),
       { refreshCalls := 1, loginCalls := 0 }) ∧
    (withAquaAuth
        { apiCall := fun n => if n = 0 then .httpError 401 0 else .success 42,
          refreshResult := .ok { access_token := "t1", refresh_token := none,
                                 expires_in := 3600 },
          loginResult := .error 0 }
        { aquacloud_url := some "https://aqua", aquacloud_username := some "u",
          aquacloud_password := some "p", aquacloud_access_token := some "t0",
          aquacloud_refresh_token := some "r0" }
        false).user.aquacloud_refresh_token = some "r0" := by
  constructor
  · exact refresh_path_token_state_c2.1 _ _
      { token := "t0", refresh_token := some "r0", expires_at := 0 }
      { access_token := "t1", refresh_token := none, expires_in := 3600 }
      (by decide) rfl (by decide) (by decide) rfl
  · exact (refresh_path_token_state_c2.2 _ _ false
      { access_token := "t1", refresh_token := none, expires_in := 3600 }
      0 42 (by decide) (by decide) (by decide) (by decide) rfl rfl
      (by decide) rfl).1

/-- C3 counterexample: the call made with the stored token yields a 401;
the refresh succeeds and the retried call yields a 401 again; instead of
this second authentication failure being terminal, the wrapper falls back
to password login and issues a third call, which succeeds — so the
original call is retried twice, not exactly once. -/
theorem second_auth_failure_not_terminal_c3_cex :
    (withAquaAuth
        { apiCall := fun n => if n = 0 then .httpError 401 0
                              else if n = 1 then .httpError 401 1
                              else .success 42,
          refreshResult := .ok { access_token := "t1",
                                 refresh_token := some "r1",
                                 expires_in := 3600 },
          loginResult := .ok { access_token := "t2",
                               refresh_token := some "r2",
                               expires_in := 3600 } }
        { aquacloud_url := some "https://aqua", aquacloud_username := some "u",
          aquacloud_password := some "p", aquacloud_access_token := some "t0",
          aquacloud_refresh_token := some "r0" }
        false).result = some 42 ∧
    (withAquaAuth
        { apiCall := fun n => if n = 0 then .httpError 401 0
                              else if n = 1 then .httpError 401 1
                              else .success 42,
          refreshResult := .ok { access_token := "t1",
                                 refresh_token := some "r1",
                                 expires_in := 3600 },
          loginResult := .ok { access_token := "t2",
                               refresh_token := some "r2",
                               expires_in := 3600 } }
        { aquacloud_url := some "https://aqua", aquacloud_username := some "u",
          aquacloud_password := some "p", aquacloud_access_token := some "t0",
          aquacloud_refresh_token := some "r0" }
        false).apiCalls = 3 ∧
    (withAquaAuth
        { apiCall := fun n => if n = 0 then .httpError 401 0
                              else if n = 1 then .httpError 401 1
                              else .success 42,
          refreshResult := .ok { access_token := "t1",
                                 refresh_token := some "r1",
                                 expires_in := 3600 },
          loginResult := .ok { access_token := "t2",
                               refresh_token := some "r2",
                               expires_in := 3600 } }
        { aquacloud_url := some "https://aqua", aquacloud_username := some "u",
          aquacloud_password := some "p", aquacloud_access_token := some "t0",
          aquacloud_refresh_token := some "r0" }
        false).loginCalls = 1 := by
  exact ⟨rfl, rfl, rfl⟩

/-- C3 amended: on a 401 from the call made with the stored token, the
wrapper refreshes and retries the original call once; if that retried call
fails with a 401 again the failure is not terminal — the wrapper falls
back to password login and retries a second time, and only the outcome of
that login-path retry is final: its payload on success, a null result
otherwise.  In total one refresh, one login and three calls are issued. -/
theorem auth_retry_chain_c3 (w : CallWorld) (user : WebUser) (silent : Bool)
    (td1 td2 : TokenData) (d0 d1 : Nat)
    (hurl : truthyStr user.aquacloud_url = true)
    (huser : truthyStr user.aquacloud_username = true)
    (hacc : truthyStr user.aquacloud_access_token = true)
    (href : truthyStr user.aquacloud_refresh_token = true)
    (hpw : truthyStr user.aquacloud_password = true)
    (h0 : w.apiCall 0 = .httpError 401 d0)
    (hr : w.refreshResult = .ok td1)
    (h1 : w.apiCall 1 = .httpError 401 d1)
    (hl : w.loginResult = .ok td2) :
    (withAquaAuth w user silent).apiCalls = 3 ∧
    (withAquaAuth w user silent).refreshCalls = 1 ∧
    (withAquaAuth w user silent).loginCalls = 1 ∧
    (withAquaAuth w user silent).result =
      (match w.apiCall 2 with
       | .success p => some p
       | _ => none) := by
  rcases h2 : w.apiCall 2 with p | ⟨s, d⟩ | c <;>
    simp [withAquaAuth, refreshOrLogin, loginFallback, hurl, huser, hacc, href, hpw, h0, hr, h1, hl, h2]

theorem auth_retry_chain_c3_witness :
    (withAquaAuth
        { apiCall := fun n => if n = 0 then .httpError 401 0
                              else if n = 1 then .httpError 401 1
                              else .success 42,
          refreshResult := .ok { access_token := "t1",
                                 refresh_token := some "r1",
                                 expires_in := 3600 },
          loginResult := .ok { access_token := "t2",
                               refresh_token := some "r2",
                               expires_in := 3600 } }
        { aquacloud_url := some "https://aqua", aquacloud_username := some "u",
          aquacloud_password := some "p", aquacloud_access_token := some "t0",
          aquacloud_refresh_token := some "r0" }
        false).apiCalls = 3 :=
  (auth_retry_chain_c3 _ _ false
    { access_token := "t1", refresh_token := some "r1", expires_in := 3600 }
    { access_token := "t2", refresh_token := some "r2", expires_in := 3600 }
    0 1 (by decide) (by decide) (by decide) (by decide) (by decide)
    rfl rfl rfl rfl).1

end Aqua
